import Mathlib

/-!
Verification development for the todoist-mcp-server-http gateway
(src/src/index.ts). The TypeScript source is shallowly embedded:
pure helpers become Lean functions, the in-memory stores become
explicit state records threaded through handler functions, upstream
network calls become oracle parameters, and thrown exceptions become
Except values. Timestamps are naturals (milliseconds). Node builtins
that are external to the repository (SHA-256, URL parsing) are taken
as opaque function parameters of the handlers that use them.
-/

namespace Todoist

/-! ## Identifier classifier (index.ts lines 91-126) -/

/-- Character class of the source regex ULID_PATTERN =
caret [0-9A-HJKMNP-TV-Z] lbrace 26 rbrace dollar: a digit, or one of the
ranges A-H, J, K, M, N, P-T, V-Z (uppercase letters excluding I, L, O, U). -/
def isUlidChar (c : Char) : Bool :=
  (Char.ofNat 48 ≤ c && c ≤ Char.ofNat 57) ||
  ((Char.ofNat 65 ≤ c && c ≤ Char.ofNat 72) ||
   (c = Char.ofNat 74 || c = Char.ofNat 75) ||
   (c = Char.ofNat 77 || c = Char.ofNat 78) ||
   (Char.ofNat 80 ≤ c && c ≤ Char.ofNat 84) ||
   (Char.ofNat 86 ≤ c && c ≤ Char.ofNat 90))

/-- ULID_REGEX.test: the whole string is 26 characters of the ULID alphabet. -/
def ulidRegexTest (s : String) : Bool :=
  s.length = 26 && s.data.all isUlidChar

/-- LEGACY_NUMERIC_ID_REGEX.test: one or more decimal digits. -/
def legacyNumericRegexTest (s : String) : Bool :=
  s.length ≥ 1 && s.data.all (fun c => Char.ofNat 48 ≤ c && c ≤ Char.ofNat 57)

/-- Error message produced by ensureUlid on rejection. -/
def ensureUlidErrMsg (field : String) : String :=
  field ++ " must be a ULID (26-character alphanumeric) or legacy numeric ID"

/-- ensureUlid(value, field): accept the value when it matches either the
ULID regex or the legacy numeric regex, otherwise throw. The typeof-string
guard of the source is subsumed by taking a String argument. -/
def ensureUlid (value field : String) : Except String String :=
  if ulidRegexTest value || legacyNumericRegexTest value then
    Except.ok value
  else
    Except.error (ensureUlidErrMsg field)

/-- isLegacyNumericId(value) on the class: false for null, undefined or the
empty string (falsy), else the legacy numeric regex test. -/
def isLegacyNumericId (value : Option String) : Bool :=
  match value with
  | none => false
  | some s => if s = "" then false else legacyNumericRegexTest s

/-! Spec-worded shape predicates, used to compare the source classifier
against the documented formats (only for the format-acceptance claim). -/

/-- Modelled from the spec: a Canonical identifier is a 26-character string
drawn from digits and uppercase letters excluding I, L, O, U. -/
def specCanonicalShape (s : String) : Prop :=
  s.length = 26 ∧ ∀ c ∈ s.data,
    (Char.ofNat 48 ≤ c ∧ c ≤ Char.ofNat 57) ∨
    (Char.ofNat 65 ≤ c ∧ c ≤ Char.ofNat 90 ∧
      c ≠ Char.ofNat 73 ∧ c ≠ Char.ofNat 76 ∧ c ≠ Char.ofNat 79 ∧ c ≠ Char.ofNat 85)

/-- Modelled from the spec: a Legacy identifier is one-or-more decimal digits. -/
def specLegacyShape (s : String) : Prop :=
  1 ≤ s.length ∧ ∀ c ∈ s.data, Char.ofNat 48 ≤ c ∧ c ≤ Char.ofNat 57

instance (s : String) : Decidable (specCanonicalShape s) := by
  unfold specCanonicalShape; infer_instance

instance (s : String) : Decidable (specLegacyShape s) := by
  unfold specLegacyShape; infer_instance

/-! ## Legacy ID resolver (index.ts lines 362-407)

The idMappingCache (a JS Map from legacy id to ULID) is a partial function
String to Option String. The upstream mapping endpoint is an oracle
parameter: given the resource type and the comma-joined uncached ids it
returns none for a non-ok response or a thrown error, and some pairs for a
successful JSON body. An invocation returns the result object (an
association list over the requested ids), the updated cache, and the
number of upstream fetch calls it issued (0 or 1). -/

/-- Cache of legacy-to-canonical mappings, keyed by the raw id string. -/
def IdCache : Type := String → Option String

/-- The empty cache (fresh idMappingCache). -/
def emptyCache : IdCache := fun _ => none

/-- Map.set on the cache. -/
def cacheSet (c : IdCache) (k v : String) : IdCache :=
  fun x => if x = k then some v else c x

/-- Lookup in a result object built as an association list. -/
def lookupPairs (ps : List (String × String)) (k : String) : Option String :=
  (ps.find? (fun p => p.1 = k)).map (fun p => p.2)

/-- mapLegacyIdsToUlids(resourceType, ids): partition into cached and
uncached; with no uncached ids return the cached subset with no upstream
call; otherwise issue one upstream fetch, merge a successful response into
the cache and answer from the merged cache, or return the empty object on
failure. -/
def mapLegacyIdsToUlids (fetch : String → List String → Option (List (String × String)))
    (resourceType : String) (cache : IdCache) (ids : List String) :
    List (String × String) × IdCache × Nat :=
  let uncachedIds := ids.filter (fun id => (cache id).isNone)
  if uncachedIds.isEmpty then
    (ids.filterMap (fun id => (cache id).map (fun u => (id, u))), cache, 0)
  else
    match fetch resourceType uncachedIds with
    | none => ([], cache, 1)
    | some mappings =>
      let cache2 := mappings.foldl (fun c p => cacheSet c p.1 p.2) cache
      (ids.filterMap (fun id => (cache2 id).map (fun u => (id, u))), cache2, 1)

/-! ## Response normalizer for tasks (index.ts lines 409-438)

A task entity keeps its id and the three cross-reference fields; none
stands for an absent, null or undefined field. The four per-field resolver
calls that the source fires in parallel over the shared cache are
serialized here in source order; this is observationally equivalent for
the properties proved below, which only concern invocations whose id sets
are empty or singleton. -/

structure TaskEntity where
  id : String
  projectId : Option String
  sectionId : Option String
  parentId : Option String
  deriving Repr, DecidableEq

/-- The taskIds collection of convertTaskIdsToUlids: own ids filtered to
legacy-numeric-shaped values. -/
def legacyTaskIdsOf (tasks : List TaskEntity) : List String :=
  (tasks.map TaskEntity.id).filter (fun id => isLegacyNumericId (some id))

/-- Cross-reference ids of one field, filtered to legacy-numeric-shaped
values (the source filter drops null and undefined). -/
def legacyRefIdsOf (f : TaskEntity → Option String) (tasks : List TaskEntity) : List String :=
  (tasks.filterMap f).filter (fun id => isLegacyNumericId (some id))

/-- One resolver invocation of convertTaskIdsToUlids: skipped entirely
(Promise.resolve of the empty object, no upstream call) when the id list
is empty. -/
def resolveFieldIds (fetch : String → List String → Option (List (String × String)))
    (resourceType : String) (cache : IdCache) (ids : List String) :
    List (String × String) × IdCache × Nat :=
  if ids.isEmpty then ([], cache, 0)
  else mapLegacyIdsToUlids fetch resourceType cache ids

/-- Rewrite pass over one task: replace the own id and each truthy
cross-reference field by its mapping when one was returned. -/
def applyTaskMappings (tm pm sm qm : List (String × String)) (t : TaskEntity) : TaskEntity :=
  let t1 := match lookupPairs tm t.id with
    | some u => { t with id := u }
    | none => t
  let t2 := match t1.projectId with
    | some p =>
      if p = "" then t1
      else match lookupPairs pm p with
        | some u => { t1 with projectId := some u }
        | none => t1
    | none => t1
  let t3 := match t2.sectionId with
    | some p =>
      if p = "" then t2
      else match lookupPairs sm p with
        | some u => { t2 with sectionId := some u }
        | none => t2
    | none => t2
  match t3.parentId with
  | some p =>
    if p = "" then t3
    else match lookupPairs qm p with
      | some u => { t3 with parentId := some u }
      | none => t3
  | none => t3

/-- convertTaskIdsToUlids(tasks): collect the four legacy id sets, resolve
each against its resource type, then rewrite every task in place. Returns
the rewritten batch, the final cache, and the total number of upstream
fetch calls issued. -/
def convertTaskIdsToUlids (fetch : String → List String → Option (List (String × String)))
    (cache : IdCache) (tasks : List TaskEntity) :
    List TaskEntity × IdCache × Nat :=
  let taskIds := legacyTaskIdsOf tasks
  let projectIds := legacyRefIdsOf TaskEntity.projectId tasks
  let sectionIds := legacyRefIdsOf TaskEntity.sectionId tasks
  let parentIds := legacyRefIdsOf TaskEntity.parentId tasks
  let r1 := resolveFieldIds fetch "tasks" cache taskIds
  let r2 := resolveFieldIds fetch "projects" r1.2.1 projectIds
  let r3 := resolveFieldIds fetch "sections" r2.2.1 sectionIds
  let r4 := resolveFieldIds fetch "tasks" r3.2.1 parentIds
  (tasks.map (applyTaskMappings r1.1 r2.1 r3.1 r4.1),
   r4.2.1,
   r1.2.2 + r2.2.2 + r3.2.2 + r4.2.2)

/-! ## Move orchestrator (index.ts lines 478-629)

Upstream collaborators are oracle parameters: taskExists models the
pre-flight getTask call succeeding, primary is the response of the REST v2
move endpoint, and syncResp is the response of the Sync v9 batch-command
endpoint. A field value of none means the option was absent, some none
means it was an explicit null (detach), some (some v) carries a value.
The trace records every invocation of the Sync fallback together with the
command args it was given. -/

structure MoveOptions where
  projectId : Option (Option String)
  sectionId : Option (Option String)
  parentId : Option (Option String)
  deriving Repr, DecidableEq

structure MovePayload where
  project_id : Option (Option String)
  section_id : Option (Option String)
  parent_id : Option (Option String)
  deriving Repr, DecidableEq

/-- Payload construction of moveTodoistTask: absent options omitted, null
options sent as explicit null, present values validated with ensureUlid. -/
def buildMovePayload (options : MoveOptions) : Except String MovePayload := do
  let pid ← match options.projectId with
    | none => pure none
    | some none => pure (some none)
    | some (some v) => (ensureUlid v "project_id").map (fun u => some (some u))
  let sid ← match options.sectionId with
    | none => pure none
    | some none => pure (some none)
    | some (some v) => (ensureUlid v "section_id").map (fun u => some (some u))
  let qid ← match options.parentId with
    | none => pure none
    | some none => pure (some none)
    | some (some v) => (ensureUlid v "parent_id").map (fun u => some (some u))
  pure ⟨pid, sid, qid⟩

/-- Object.keys(payload).length === 0. -/
def MovePayload.isEmpty (p : MovePayload) : Bool :=
  p.project_id = none && p.section_id = none && p.parent_id = none

structure HttpResponse where
  status : Nat
  body : String
  deriving Repr, DecidableEq

/-- fetch Response.ok: status in the range 200-299. -/
def HttpResponse.isOk (r : HttpResponse) : Bool :=
  200 ≤ r.status && r.status < 300

/-- The args object of the Sync v9 item_move command: the task id plus
each payload field copied over exactly when it is present (the source adds
the key iff the payload key is not undefined, null included). -/
structure SyncCommandArgs where
  id : String
  project_id : Option (Option String)
  section_id : Option (Option String)
  parent_id : Option (Option String)
  deriving Repr, DecidableEq

/-- Command-args construction of moveTodoistTaskViaSyncApi. -/
def buildSyncCommandArgs (taskId : String) (p : MovePayload) : SyncCommandArgs :=
  ⟨taskId, p.project_id, p.section_id, p.parent_id⟩

/-- Response of the Sync endpoint: HTTP layer plus the sync_status entry
keyed by the command uuid, when the response carries one. -/
structure SyncResponse where
  http : HttpResponse
  commandStatus : Option String
  deriving Repr, DecidableEq

/-- moveTodoistTaskViaSyncApi: non-ok HTTP is fatal; a sync_status entry
for the command uuid other than the string ok is fatal; otherwise the sync
result is returned. -/
def moveTodoistTaskViaSyncApi (syncResp : SyncResponse) (taskId : String) : Except String String :=
  if !syncResp.http.isOk then
    Except.error ("Todoist Sync API move failed (" ++ toString syncResp.http.status ++ "): "
      ++ syncResp.http.body ++ ". Task ID: " ++ taskId)
  else
    match syncResp.commandStatus with
    | some s =>
      if s ≠ "ok" then
        Except.error ("Todoist Sync API move failed: " ++ s ++ ". Task ID: " ++ taskId)
      else Except.ok syncResp.http.body
    | none => Except.ok syncResp.http.body

/-- Error message thrown by moveTodoistTask for a non-404 primary failure
(the JSON rendering of the payload in the source message is elided). -/
def moveFailedMsg (primary : HttpResponse) (taskId : String) : String :=
  "Todoist move failed (" ++ toString primary.status ++ "): " ++ primary.body
    ++ ". Task ID: " ++ taskId

inductive MoveOutcome where
  | noOp
  | primaryOk (body : String)
  | fallbackOk (syncResult : String)
  deriving Repr, DecidableEq

structure MoveTrace where
  result : Except String MoveOutcome
  syncInvocations : List SyncCommandArgs
  deriving Repr

/-- moveTodoistTask(taskId, options): validate the task id, verify the
task exists, build the partial payload, short-circuit on an empty payload,
call the primary REST v2 move endpoint, and on its failure fall back to
the Sync v9 protocol exactly when the primary status is 404; any other
failure status is surfaced as an error. -/
def moveTodoistTask (taskExists : Bool) (primary : HttpResponse) (syncResp : SyncResponse)
    (taskId : String) (options : MoveOptions) : MoveTrace :=
  match ensureUlid taskId "task_id" with
  | Except.error e => ⟨Except.error e, []⟩
  | Except.ok tid =>
    if !taskExists then
      ⟨Except.error ("Cannot move task " ++ tid ++ ": task not found or inaccessible"), []⟩
    else
      match buildMovePayload options with
      | Except.error e => ⟨Except.error e, []⟩
      | Except.ok payload =>
        if payload.isEmpty then ⟨Except.ok MoveOutcome.noOp, []⟩
        else if primary.isOk then ⟨Except.ok (MoveOutcome.primaryOk primary.body), []⟩
        else if primary.status = 404 then
          let args := buildSyncCommandArgs tid payload
          ⟨(moveTodoistTaskViaSyncApi syncResp tid).map MoveOutcome.fallbackOk, [args]⟩
        else ⟨Except.error (moveFailedMsg primary tid), []⟩

/-! ## Bearer token validator (index.ts lines 299-323)

The issuedTokens Map and the allowedTokens Set become a state record; the
validator returns its answer together with the possibly-shrunk state. The
JS truthiness test on stored.expiresAt is false for null and for the
number 0, so lazy expiry only fires for a nonzero expiresAt. -/

structure TokenInfo where
  user : String
  createdAt : Nat
  scope : String
  expiresAt : Option Nat
  deriving Repr, DecidableEq

structure TokenStore where
  issued : String → Option TokenInfo
  allowed : List String

def DEFAULT_SCOPE : String := "todoist.read todoist.write"

/-- The synthetic info returned for a pre-shared allow-list token. -/
def preSharedInfo : TokenInfo :=
  ⟨"pre-shared-token", 0, DEFAULT_SCOPE, none⟩

/-- Map.delete on the issued-token store. -/
def deleteIssued (st : TokenStore) (token : String) : TokenStore :=
  { st with issued := fun x => if x = token then none else st.issued x }

/-- getTokenInfo(token): a known issued token is lazily expired (deleted
and treated as absent) when its expiresAt is truthy and in the past, else
its info is returned; otherwise an allow-list member yields the synthetic
pre-shared info; otherwise null. -/
def getTokenInfo (now : Nat) (st : TokenStore) (token : String) :
    Option TokenInfo × TokenStore :=
  match st.issued token with
  | some stored =>
    match stored.expiresAt with
    | some e =>
      if e ≠ 0 && now > e then (none, deleteIssued st token)
      else (some stored, st)
    | none => (some stored, st)
  | none =>
    if token ∈ st.allowed then (some preSharedInfo, st) else (none, st)

/-- isTokenAuthorized(token). -/
def isTokenAuthorized (now : Nat) (st : TokenStore) (token : String) : Bool :=
  (getTokenInfo now st token).1.isSome

/-! ## OAuth stores and the authorize / token handlers
(index.ts lines 13-16, 25-59, 284-297, 1678-1900)

Express query parameters and body fields are strings with the empty
string standing for undefined (both are falsy in the source checks).
Randomly generated values (tokens, relay state) and the Node URL parser
are parameters. Times are milliseconds. -/

def SCOPES : List String := ["todoist.read", "todoist.write"]

def AUTH_CODE_TTL_MS : Nat := 10 * 60 * 1000

def ACCESS_TOKEN_TTL_MS : Nat := 24 * 60 * 60 * 1000

/-- Word accumulator for whitespace splitting (structural recursion, so
that concrete inputs evaluate inside the kernel). -/
def wordsAux : List Char → List Char → List String
  | [], acc => if acc.isEmpty then [] else [⟨acc.reverse⟩]
  | c :: cs, acc =>
    if c.isWhitespace then
      (if acc.isEmpty then wordsAux cs [] else (⟨acc.reverse⟩ : String) :: wordsAux cs [])
    else wordsAux cs (c :: acc)

/-- scope.split on whitespace with empty pieces dropped. -/
def splitWs (s : String) : List String :=
  wordsAux s.data []

/-- String.prototype.trim: strip leading and trailing whitespace. -/
def jsTrim (s : String) : String :=
  ⟨(((s.data.dropWhile Char.isWhitespace).reverse).dropWhile Char.isWhitespace).reverse⟩

/-- scopes.join with a single space. -/
def joinScopes (l : List String) : String :=
  String.intercalate " " l

structure RegisteredClient where
  clientId : String
  clientName : Option String
  redirectUris : List String
  scope : String
  tokenEndpointAuthMethod : String
  clientIdIssuedAt : Nat
  clientSecretExpiresAt : Option Nat
  registrationAccessToken : String
  deriving Repr, DecidableEq

structure AuthorizationCodeRecord where
  clientId : String
  redirectUri : String
  codeChallenge : String
  codeChallengeMethod : String
  scope : String
  user : String
  createdAt : Nat
  expiresAt : Nat
  deriving Repr, DecidableEq

inductive PendingAuthState where
  | manual (createdAt : Nat) (scope : String)
  | oauth (clientId redirectUri codeChallenge codeChallengeMethod scope originalState : String)
      (createdAt : Nat)
  deriving Repr, DecidableEq

/-- The process-wide in-memory maps the OAuth endpoints mutate. -/
structure OAuthStores where
  registeredClients : String → Option RegisteredClient
  authorizationCodes : String → Option AuthorizationCodeRecord
  pendingAuthStates : String → Option PendingAuthState
  issuedTokens : String → Option TokenInfo

def setClient (st : OAuthStores) (c : RegisteredClient) : OAuthStores :=
  { st with registeredClients := fun k => if k = c.clientId then some c else st.registeredClients k }

def deleteAuthCode (st : OAuthStores) (code : String) : OAuthStores :=
  { st with authorizationCodes := fun k => if k = code then none else st.authorizationCodes k }

def setPending (st : OAuthStores) (key : String) (p : PendingAuthState) : OAuthStores :=
  { st with pendingAuthStates := fun k => if k = key then some p else st.pendingAuthStates k }

def setIssuedToken (st : OAuthStores) (token : String) (info : TokenInfo) : OAuthStores :=
  { st with issuedTokens := fun k => if k = token then some info else st.issuedTokens k }

/-! ### POST /oauth/token (index.ts lines 1811-1900) -/

structure TokenRequest where
  grantType : String
  code : String
  redirectUri : String
  clientId : String
  codeVerifier : String
  deriving Repr, DecidableEq

inductive TokenResult where
  | err (status : Nat) (error : String) (desc : String)
  | success (accessToken : String) (tokenType : String) (expiresIn : Nat) (scope : String)
  deriving Repr, DecidableEq

def TokenResult.isSuccess : TokenResult → Bool
  | TokenResult.success _ _ _ _ => true
  | TokenResult.err _ _ _ => false

/-- The /oauth/token handler. sha256Base64Url abstracts the Node crypto
builtin of index.ts lines 61-71; newToken abstracts the randomUUID-based
access-token string. Each failure branch that has already looked up the
code record deletes it (single-use); the two early rejections fire before
the lookup and leave the store untouched. -/
def oauthToken (sha256Base64Url : String → String) (now : Nat) (newToken : String)
    (st : OAuthStores) (req : TokenRequest) : TokenResult × OAuthStores :=
  if req.grantType ≠ "authorization_code" then
    (TokenResult.err 400 "unsupported_grant_type"
      "Only authorization_code grant type is supported", st)
  else if req.code = "" || req.redirectUri = "" || req.clientId = "" || req.codeVerifier = "" then
    (TokenResult.err 400 "invalid_request"
      "code, redirect_uri, client_id, and code_verifier are required", st)
  else
    match st.authorizationCodes req.code with
    | none =>
      (TokenResult.err 400 "invalid_grant" "Unknown authorization code", st)
    | some record =>
      if record.clientId ≠ req.clientId || record.redirectUri ≠ req.redirectUri then
        (TokenResult.err 400 "invalid_grant" "Client or redirect URI mismatch",
         deleteAuthCode st req.code)
      else if now > record.expiresAt then
        (TokenResult.err 400 "invalid_grant" "Authorization code has expired",
         deleteAuthCode st req.code)
      else if sha256Base64Url req.codeVerifier ≠ record.codeChallenge then
        (TokenResult.err 400 "invalid_grant" "PKCE verification failed",
         deleteAuthCode st req.code)
      else
        match st.registeredClients record.clientId with
        | none =>
          (TokenResult.err 400 "invalid_client" "Client is not registered",
           deleteAuthCode st req.code)
        | some _ =>
          let st1 := deleteAuthCode st req.code
          let st2 := setIssuedToken st1 newToken
            ⟨record.user, now, record.scope, some (now + ACCESS_TOKEN_TTL_MS)⟩
          (TokenResult.success newToken "Bearer" (ACCESS_TOKEN_TTL_MS / 1000) record.scope, st2)

/-! ### GET /oauth/authorize (index.ts lines 1678-1809) -/

structure AuthorizeRequest where
  responseType : String
  clientId : String
  redirectUri : String
  state : String
  codeChallenge : String
  codeChallengeMethod : String
  scope : String
  deriving Repr, DecidableEq

inductive AuthorizeResult where
  | err (status : Nat) (error : String) (desc : String)
  | redirectToGitHub (githubState : String)
  deriving Repr, DecidableEq

/-- ASCII lowercase map, standing in for the JS toLowerCase on the ASCII
inputs the handler compares against. -/
def asciiLower (s : String) : String := ⟨s.data.map Char.toLower⟩

/-- ASCII uppercase map, standing in for the JS toUpperCase. -/
def asciiUpper (s : String) : String := ⟨s.data.map Char.toUpper⟩

/-- The /oauth/authorize handler. isValidUrl abstracts the Node URL
constructor succeeding on the redirect URI; githubConfigured models the
presence of the GitHub client id and callback URL in the environment;
autoRegToken and githubState abstract the randomUUID-generated
registration access token and relay-state token. -/
def oauthAuthorize (isValidUrl : String → Bool) (githubConfigured : Bool)
    (autoRegToken githubState : String) (now : Nat)
    (st : OAuthStores) (req : AuthorizeRequest) : AuthorizeResult × OAuthStores :=
  let responseType := asciiLower (if req.responseType = "" then "code" else req.responseType)
  if responseType ≠ "code" then
    (AuthorizeResult.err 400 "unsupported_response_type"
      "Only response_type=code is supported", st)
  else if req.clientId = "" || req.redirectUri = "" || req.state = "" || req.codeChallenge = "" then
    (AuthorizeResult.err 400 "invalid_request"
      "client_id, redirect_uri, state, and code_challenge are required", st)
  else if asciiUpper (if req.codeChallengeMethod = "" then "S256" else req.codeChallengeMethod) ≠ "S256" then
    (AuthorizeResult.err 400 "invalid_request"
      "Only PKCE S256 code_challenge_method is supported", st)
  else
    let requestedScopes :=
      splitWs (if jsTrim req.scope ≠ "" then jsTrim req.scope else DEFAULT_SCOPE)
    let normalizedRequestedScope :=
      if requestedScopes.isEmpty then DEFAULT_SCOPE else joinScopes requestedScopes
    let found := st.registeredClients req.clientId
    if found.isNone && !(isValidUrl req.redirectUri) then
      (AuthorizeResult.err 400 "invalid_request"
        "redirect_uri is invalid or missing", st)
    else
      let autoRegistered : RegisteredClient :=
        ⟨req.clientId, none, [req.redirectUri], normalizedRequestedScope, "none",
         now / 1000, some 0, autoRegToken⟩
      let clientRegistration := match found with
        | some c => c
        | none => autoRegistered
      let st1 := match found with
        | some _ => st
        | none => setClient st autoRegistered
      if !(clientRegistration.redirectUris.contains req.redirectUri) then
        (AuthorizeResult.err 400 "invalid_request"
          "redirect_uri is not registered for this client", st1)
      else
        let allowedScopes := splitWs clientRegistration.scope
        let invalidRequestedScopes := requestedScopes.filter (fun s => !(allowedScopes.contains s))
        if !invalidRequestedScopes.isEmpty then
          (AuthorizeResult.err 400 "invalid_scope"
            ("Scope not allowed: " ++ String.intercalate ", " invalidRequestedScopes), st1)
        else
          let invalidScopes := requestedScopes.filter (fun s => !(SCOPES.contains s))
          if !invalidScopes.isEmpty then
            (AuthorizeResult.err 400 "invalid_scope"
              ("Unsupported scope(s): " ++ String.intercalate ", " invalidScopes), st1)
          else
            let normalizedScope :=
              if requestedScopes.isEmpty then clientRegistration.scope
              else joinScopes requestedScopes
            if !githubConfigured then
              (AuthorizeResult.err 500 "server_error" "GitHub OAuth not configured", st1)
            else
              (AuthorizeResult.redirectToGitHub githubState,
               setPending st1 githubState
                 (PendingAuthState.oauth req.clientId req.redirectUri req.codeChallenge
                   "S256" normalizedScope req.state now))

/-! ## Batch tool handlers (index.ts lines 232-258, 939-974, 975-1527)

Each batch tool maps an async callback over its item array and awaits
Promise.all. A throw inside the per-item try is caught and recorded in
that item's result entry; a throw before the try (argument validation such
as ensureUlid on task_id, which the source performs outside the try in
every handler except todoist_create_task) rejects the whole Promise.all,
so the handler itself throws and the CallTool dispatcher answers with the
bare error object instead of the batch envelope. promiseAll models
Promise.all: the first rejection wins. The upstream Todoist client call of
each item is an oracle carried on the item. -/

inductive UpstreamOutcome where
  | ok
  | fail (msg : String)
  deriving Repr, DecidableEq

structure BatchItemResult where
  success : Bool
  ident : String
  error : Option String
  deriving Repr, DecidableEq

inductive ToolResponse where
  | batch (success : Bool) (total succeeded failed : Nat)
      (results : List BatchItemResult) (isError : Bool)
  | bare (success : Bool) (error : String) (isError : Bool)
  deriving Repr, DecidableEq

/-- buildBatchResponse(results, total) (index.ts lines 244-258). -/
def buildBatchResponse (results : List BatchItemResult) (total : Nat) : ToolResponse :=
  let successCount := (results.filter (fun r => r.success)).length
  ToolResponse.batch (successCount = total) total successCount (total - successCount)
    results (successCount ≠ total)

/-- Is the response the well-formed batch-summary envelope (as opposed to
the bare error object)? -/
def ToolResponse.isEnvelope : ToolResponse → Bool
  | ToolResponse.batch _ _ _ _ _ _ => true
  | ToolResponse.bare _ _ _ => false

def ToolResponse.resultsOf : ToolResponse → List BatchItemResult
  | ToolResponse.batch _ _ _ _ rs _ => rs
  | ToolResponse.bare _ _ _ => []

def ToolResponse.totalOf : ToolResponse → Nat
  | ToolResponse.batch _ t _ _ _ _ => t
  | ToolResponse.bare _ _ _ => 0

/-- Promise.all over per-item computations: the first rejection rejects
the whole batch. -/
def promiseAll (p : α → Except String β) : List α → Except String (List β)
  | [] => Except.ok []
  | a :: l =>
    match p a with
    | Except.error e => Except.error e
    | Except.ok b => (promiseAll p l).map (fun bs => b :: bs)

/-- ensureString(value, field) with the default allowEmpty=false. -/
def ensureString (value field : String) : Except String String :=
  if jsTrim value = "" then Except.error (field ++ " must not be empty")
  else Except.ok value

/-- ensureOptionalUlid(value, field). -/
def ensureOptionalUlid (value : Option String) (field : String) : Except String (Option String) :=
  match value with
  | none => Except.ok none
  | some s => (ensureUlid s field).map some

/-- The per-item success/failure entry shared by the simple task-id tools:
success echoes the task id, failure echoes it with the caught message. -/
def taskIdEntry (tid : String) : UpstreamOutcome → BatchItemResult
  | UpstreamOutcome.ok => ⟨true, tid, none⟩
  | UpstreamOutcome.fail m => ⟨false, tid, some m⟩

/-- Wrapper for the CallTool dispatcher (index.ts lines 939-974): a
handler that throws is caught and turned into the bare
success:false/error object. -/
def dispatchTool (handler : Except String ToolResponse) : ToolResponse :=
  match handler with
  | Except.ok r => r
  | Except.error e => ToolResponse.bare false e true

/-! ### todoist_create_task (handleCreateTasks, index.ts lines 975-1052):
the only batch handler whose identifier validation runs inside the
per-item try, so a validation failure lands in that item's entry. -/

structure CreateTaskItem where
  content : String
  projectId : Option String
  sectionId : Option String
  parentId : Option String
  assigneeId : Option String
  upstream : UpstreamOutcome
  deriving Repr, DecidableEq

/-- The in-try validation chain of one create item (content plus the four
optional identifier fields; the remaining optional fields of the source
carry no identifiers and are elided). -/
def createTaskValidate (it : CreateTaskItem) : Except String Unit := do
  let _ ← ensureString it.content "tasks[].content"
  let _ ← ensureOptionalUlid it.projectId "tasks[].project_id"
  let _ ← ensureOptionalUlid it.sectionId "tasks[].section_id"
  let _ ← ensureOptionalUlid it.parentId "tasks[].parent_id"
  let _ ← ensureOptionalUlid it.assigneeId "tasks[].assignee_id"
  pure ()

/-- Expected entry for one create item: validation failure or upstream
failure is recorded in the entry, success echoes the content. -/
def createTaskEntry (it : CreateTaskItem) : BatchItemResult :=
  match createTaskValidate it with
  | Except.error m => ⟨false, it.content, some m⟩
  | Except.ok _ =>
    match it.upstream with
    | UpstreamOutcome.ok => ⟨true, it.content, none⟩
    | UpstreamOutcome.fail m => ⟨false, it.content, some m⟩

def processCreateTaskItem (it : CreateTaskItem) : Except String BatchItemResult :=
  Except.ok (createTaskEntry it)

def handleCreateTasks (items : List CreateTaskItem) : Except String ToolResponse :=
  if items.isEmpty then Except.error "tasks must be a non-empty array"
  else (promiseAll processCreateTaskItem items).map
    (fun rs => buildBatchResponse rs items.length)

/-! ### todoist_update_task (handleUpdateTasks, index.ts lines 1109-1199):
ensureUlid on task_id runs before the try; everything after it (field
validation, updateTask, moveTodoistTask) is inside the try and collapsed
into the inTry oracle. -/

structure UpdateTaskItem where
  taskId : String
  inTry : UpstreamOutcome
  deriving Repr, DecidableEq

def processUpdateTaskItem (it : UpdateTaskItem) : Except String BatchItemResult :=
  match ensureUlid it.taskId "tasks[].task_id" with
  | Except.error e => Except.error e
  | Except.ok tid => Except.ok (taskIdEntry tid it.inTry)

def handleUpdateTasks (items : List UpdateTaskItem) : Except String ToolResponse :=
  if items.isEmpty then Except.error "tasks must be a non-empty array"
  else (promiseAll processUpdateTaskItem items).map
    (fun rs => buildBatchResponse rs items.length)

/-! ### todoist_delete_task (handleDeleteTasks, index.ts lines 1199-1227):
ensureUlid on task_id runs before the try. -/

structure DeleteTaskItem where
  taskId : String
  upstream : UpstreamOutcome
  deriving Repr, DecidableEq

def processDeleteTaskItem (it : DeleteTaskItem) : Except String BatchItemResult :=
  match ensureUlid it.taskId "tasks[].task_id" with
  | Except.error e => Except.error e
  | Except.ok tid => Except.ok (taskIdEntry tid it.upstream)

def handleDeleteTasks (items : List DeleteTaskItem) : Except String ToolResponse :=
  if items.isEmpty then Except.error "tasks must be a non-empty array"
  else (promiseAll processDeleteTaskItem items).map
    (fun rs => buildBatchResponse rs items.length)

/-! ### todoist_complete_task (handleCompleteTasks, index.ts lines
1229-1257): same shape as delete. -/

def processCompleteTaskItem (it : DeleteTaskItem) : Except String BatchItemResult :=
  match ensureUlid it.taskId "tasks[].task_id" with
  | Except.error e => Except.error e
  | Except.ok tid => Except.ok (taskIdEntry tid it.upstream)

def handleCompleteTasks (items : List DeleteTaskItem) : Except String ToolResponse :=
  if items.isEmpty then Except.error "tasks must be a non-empty array"
  else (promiseAll processCompleteTaskItem items).map
    (fun rs => buildBatchResponse rs items.length)

/-! ### todoist_get_task_comments (handleGetTaskComments, index.ts lines
1384-1416): ensureUlid on task_id runs before the try. -/

def processGetCommentsItem (it : DeleteTaskItem) : Except String BatchItemResult :=
  match ensureUlid it.taskId "tasks[].task_id" with
  | Except.error e => Except.error e
  | Except.ok tid => Except.ok (taskIdEntry tid it.upstream)

def handleGetTaskComments (items : List DeleteTaskItem) : Except String ToolResponse :=
  if items.isEmpty then Except.error "tasks must be a non-empty array"
  else (promiseAll processGetCommentsItem items).map
    (fun rs => buildBatchResponse rs items.length)

/-! ### todoist_create_task_comment (handleCreateTaskComments, index.ts
lines 1418-1452): ensureUlid on task_id and ensureString on content both
run before the try. -/

structure CommentItem where
  taskId : String
  content : String
  upstream : UpstreamOutcome
  deriving Repr, DecidableEq

def processCreateCommentItem (it : CommentItem) : Except String BatchItemResult :=
  match ensureUlid it.taskId "comments[].task_id" with
  | Except.error e => Except.error e
  | Except.ok tid =>
    match ensureString it.content "comments[].content" with
    | Except.error e => Except.error e
    | Except.ok _ => Except.ok (taskIdEntry tid it.upstream)

def handleCreateTaskComments (items : List CommentItem) : Except String ToolResponse :=
  if items.isEmpty then Except.error "comments must be a non-empty array"
  else (promiseAll processCreateCommentItem items).map
    (fun rs => buildBatchResponse rs items.length)

/-! ### todoist_create_section (handleCreateSections, index.ts lines
1454-1490): ensureUlid on project_id and ensureString on name both run
before the try. -/

structure SectionCreateItem where
  projectId : String
  name : String
  upstream : UpstreamOutcome
  deriving Repr, DecidableEq

def processCreateSectionItem (it : SectionCreateItem) : Except String BatchItemResult :=
  match ensureUlid it.projectId "sections[].project_id" with
  | Except.error e => Except.error e
  | Except.ok pid =>
    match ensureString it.name "sections[].name" with
    | Except.error e => Except.error e
    | Except.ok _ => Except.ok (taskIdEntry pid it.upstream)

def handleCreateSections (items : List SectionCreateItem) : Except String ToolResponse :=
  if items.isEmpty then Except.error "sections must be a non-empty array"
  else (promiseAll processCreateSectionItem items).map
    (fun rs => buildBatchResponse rs items.length)

/-! ### todoist_rename_section (handleRenameSections, index.ts lines
1492-1527): ensureUlid on section_id and ensureString on new_name both run
before the try. -/

structure SectionRenameItem where
  sectionId : String
  newName : String
  upstream : UpstreamOutcome
  deriving Repr, DecidableEq

def processRenameSectionItem (it : SectionRenameItem) : Except String BatchItemResult :=
  match ensureUlid it.sectionId "sections[].section_id" with
  | Except.error e => Except.error e
  | Except.ok sid =>
    match ensureString it.newName "sections[].new_name" with
    | Except.error e => Except.error e
    | Except.ok _ => Except.ok (taskIdEntry sid it.upstream)

def handleRenameSections (items : List SectionRenameItem) : Except String ToolResponse :=
  if items.isEmpty then Except.error "sections must be a non-empty array"
  else (promiseAll processRenameSectionItem items).map
    (fun rs => buildBatchResponse rs items.length)

/-! ### Spec-side batch predicate for the normalizer no-op claim -/

/-- Modelled from the spec: an absent cross-reference field is vacuously
canonical; a populated one must be Canonical-shaped. -/
def specCanonicalOpt : Option String → Prop
  | none => True
  | some p => specCanonicalShape p

instance (o : Option String) : Decidable (specCanonicalOpt o) := by
  cases o <;> simp [specCanonicalOpt] <;> infer_instance

/-- Modelled from the spec: a batch of entities whose own ids and
cross-reference fields are all Canonical-shaped. -/
def specAllCanonicalShaped (tasks : List TaskEntity) : Prop :=
  ∀ t ∈ tasks, specCanonicalShape t.id ∧ specCanonicalOpt t.projectId ∧
    specCanonicalOpt t.sectionId ∧ specCanonicalOpt t.parentId

instance (tasks : List TaskEntity) : Decidable (specAllCanonicalShaped tasks) := by
  unfold specAllCanonicalShaped; infer_instance

/-! ## Helper lemmas -/

/-- The ULID character class of the source regex is exactly the documented
alphabet: digits and uppercase letters excluding I, L, O, U. -/
theorem isUlidChar_iff (c : Char) : isUlidChar c = true ↔
    ((Char.ofNat 48 ≤ c ∧ c ≤ Char.ofNat 57) ∨
     (Char.ofNat 65 ≤ c ∧ c ≤ Char.ofNat 90 ∧
       c ≠ Char.ofNat 73 ∧ c ≠ Char.ofNat 76 ∧ c ≠ Char.ofNat 79 ∧ c ≠ Char.ofNat 85)) := by
  have eqiff : ∀ n : Nat, n < 128 → ((c = Char.ofNat n) ↔ c.val.toBitVec.toNat = n) := by
    intro n hn
    have hv : n.isValidChar := Or.inl (by omega)
    have hofn : (Char.ofNat n).val.toBitVec.toNat = n := by
      simp only [Char.ofNat, dif_pos hv]
      rfl
    constructor
    · intro h
      subst h
      exact hofn
    · intro h
      apply Char.ext
      apply UInt32.ext
      show c.val.toBitVec.toNat = (Char.ofNat n).val.toBitVec.toNat
      rw [h, hofn]
  have e73 := eqiff 73 (by omega)
  have e76 := eqiff 76 (by omega)
  have e79 := eqiff 79 (by omega)
  have e85 := eqiff 85 (by omega)
  simp only [isUlidChar, Bool.or_eq_true, Bool.and_eq_true, decide_eq_true_eq,
    Char.le_def, UInt32.le_def, BitVec.le_def, ne_eq, e73, e76, e79, e85,
    eqiff 74 (by omega), eqiff 75 (by omega), eqiff 77 (by omega), eqiff 78 (by omega),
    show ∀ x : UInt32, x.toNat = x.toBitVec.toNat from fun _ => rfl,
    show (Char.ofNat 48).val.toBitVec.toNat = 48 from rfl,
    show (Char.ofNat 57).val.toBitVec.toNat = 57 from rfl,
    show (Char.ofNat 65).val.toBitVec.toNat = 65 from rfl,
    show (Char.ofNat 72).val.toBitVec.toNat = 72 from rfl,
    show (Char.ofNat 80).val.toBitVec.toNat = 80 from rfl,
    show (Char.ofNat 84).val.toBitVec.toNat = 84 from rfl,
    show (Char.ofNat 86).val.toBitVec.toNat = 86 from rfl,
    show (Char.ofNat 90).val.toBitVec.toNat = 90 from rfl]
  omega

/-- The source ULID regex accepts exactly the spec-worded Canonical shape. -/
theorem ulidRegexTest_iff (s : String) : ulidRegexTest s = true ↔ specCanonicalShape s := by
  unfold ulidRegexTest specCanonicalShape
  simp only [Bool.and_eq_true, decide_eq_true_eq, List.all_eq_true]
  constructor
  · rintro ⟨h1, h2⟩
    exact ⟨h1, fun c hc => (isUlidChar_iff c).mp (h2 c hc)⟩
  · rintro ⟨h1, h2⟩
    exact ⟨h1, fun c hc => (isUlidChar_iff c).mpr (h2 c hc)⟩

/-- The source legacy-numeric regex accepts exactly the spec-worded Legacy
shape. -/
theorem legacyNumericRegexTest_iff (s : String) :
    legacyNumericRegexTest s = true ↔ specLegacyShape s := by
  unfold legacyNumericRegexTest specLegacyShape
  simp only [Bool.and_eq_true, decide_eq_true_eq, List.all_eq_true, ge_iff_le]

/-- ensureUlid succeeds exactly on the two documented shapes. -/
theorem ensureUlid_isOk_iff (value field : String) :
    (ensureUlid value field).isOk = true ↔ (specCanonicalShape value ∨ specLegacyShape value) := by
  rw [← ulidRegexTest_iff, ← legacyNumericRegexTest_iff, ← Bool.or_eq_true]
  unfold ensureUlid
  by_cases h : (ulidRegexTest value || legacyNumericRegexTest value) = true <;>
    simp [h, Except.isOk, Except.toBool]

/-! ## Claim theorems -/

/-- C6: identifier classification accepts exactly the two documented
shapes — a string passes ensureUlid iff it is a 26-character string over
digits and uppercase letters excluding I, L, O, U, or a string of
one-or-more decimal digits; the two documented example identifiers are
accepted and the three documented bad inputs are rejected with the
validation error. -/
theorem c6_format_acceptance :
    (∀ value field : String,
      (ensureUlid value field).isOk = true ↔ (specCanonicalShape value ∨ specLegacyShape value))
    ∧ ensureUlid "01J0M8KPV7Z2F4S9DX3T8HCN8F" "task_id" = Except.ok "01J0M8KPV7Z2F4S9DX3T8HCN8F"
    ∧ ensureUlid "2995104339" "task_id" = Except.ok "2995104339"
    ∧ ensureUlid "" "task_id" = Except.error (ensureUlidErrMsg "task_id")
    ∧ ensureUlid "abc-123" "task_id" = Except.error (ensureUlidErrMsg "task_id")
    ∧ ensureUlid "01j0m8kpv7z2f4s9dx3t8hcn8f" "task_id" = Except.error (ensureUlidErrMsg "task_id") :=
  ⟨ensureUlid_isOk_iff, rfl, rfl, rfl, rfl, rfl⟩


theorem c10_shape_overlap (s : String) (hlen : s.length = 26)
    (hdig : ∀ c ∈ s.data, Char.ofNat 48 ≤ c ∧ c ≤ Char.ofNat 57) :
    ulidRegexTest s = true
    ∧ legacyNumericRegexTest s = true
    ∧ isLegacyNumericId (some s) = true
    ∧ legacyTaskIdsOf [⟨s, none, none, none⟩] = [s]
    ∧ ∀ fetch, (convertTaskIdsToUlids fetch emptyCache [⟨s, none, none, none⟩]).2.2 = 1 := by
  have hne : s ≠ "" := by
    intro he
    subst he
    simp at hlen
  have hleg : legacyNumericRegexTest s = true := by
    unfold legacyNumericRegexTest
    simp only [Bool.and_eq_true, decide_eq_true_eq, List.all_eq_true, ge_iff_le]
    exact ⟨by omega, fun c hc => by simpa using hdig c hc⟩
  have hulid : ulidRegexTest s = true := by
    unfold ulidRegexTest
    simp only [Bool.and_eq_true, decide_eq_true_eq, List.all_eq_true]
    exact ⟨hlen, fun c hc => (isUlidChar_iff c).mpr (Or.inl (hdig c hc))⟩
  have hlegid : isLegacyNumericId (some s) = true := by
    show (if s = "" then false else legacyNumericRegexTest s) = true
    rw [if_neg hne]
    exact hleg
  have htids : legacyTaskIdsOf [⟨s, none, none, none⟩] = [s] := by
    unfold legacyTaskIdsOf
    simp [hlegid]
  refine ⟨hulid, hleg, hlegid, htids, fun fetch => ?_⟩
  have hp : legacyRefIdsOf TaskEntity.projectId [⟨s, none, none, none⟩] = [] := rfl
  have hs2 : legacyRefIdsOf TaskEntity.sectionId [⟨s, none, none, none⟩] = [] := rfl
  have hq : legacyRefIdsOf TaskEntity.parentId [⟨s, none, none, none⟩] = [] := rfl
  have hmap : (mapLegacyIdsToUlids fetch "tasks" emptyCache [s]).2.2 = 1 := by
    have hf : ([s].filter (fun id => (emptyCache id).isNone)) = [s] := by
      simp [emptyCache]
    unfold mapLegacyIdsToUlids
    rw [hf]
    simp only [List.isEmpty_cons, Bool.false_eq_true, if_false]
    cases fetch "tasks" [s] <;> simp
  simp only [convertTaskIdsToUlids, htids, hp, hs2, hq, resolveFieldIds,
    List.isEmpty_nil, List.isEmpty_cons, if_true, Bool.false_eq_true, if_false, hmap]

/-- C8: lazy token expiry — for an issued token whose expiresAt is
non-null (and positive, as holds for every token the code mints: expiring
tokens get now plus a positive TTL) and in the past at validation time,
getTokenInfo rejects the token and deletes it from the issued-token store
in that same check, so a direct lookup afterwards finds it absent and the
caller is unauthenticated; a token with expiresAt null or in the future is
accepted with its stored info and the store is left unchanged. -/
theorem c8_token_expiry (now : Nat) (st : TokenStore) (token : String) (info : TokenInfo)
    (hstored : st.issued token = some info) :
    (∀ e, info.expiresAt = some e → 0 < e → e < now →
      (getTokenInfo now st token).1 = none
      ∧ ((getTokenInfo now st token).2).issued token = none
      ∧ isTokenAuthorized now st token = false)
    ∧ (info.expiresAt = none → getTokenInfo now st token = (some info, st))
    ∧ (∀ e, info.expiresAt = some e → now < e → getTokenInfo now st token = (some info, st)) := by
  refine ⟨?_, ?_, ?_⟩
  · intro e he h0 hpast
    have hres : getTokenInfo now st token = (none, deleteIssued st token) := by
      unfold getTokenInfo
      simp only [hstored, he]
      rw [if_pos]
      simp only [Bool.and_eq_true, decide_eq_true_eq, ne_eq]
      exact ⟨by omega, by omega⟩
    refine ⟨by rw [hres], ?_, ?_⟩
    · rw [hres]
      show (deleteIssued st token).issued token = none
      unfold deleteIssued
      simp
    · unfold isTokenAuthorized
      rw [hres]
      rfl
  · intro he
    unfold getTokenInfo
    simp only [hstored, he]
  · intro e he hfut
    unfold getTokenInfo
    simp only [hstored, he]
    rw [if_neg]
    simp only [Bool.and_eq_true, decide_eq_true_eq, ne_eq]
    omega


/-- Witness for C8 at a concrete expired token. -/
theorem c8_token_expiry_witness :
    (getTokenInfo 100 ⟨fun t => if t = "tok1" then some ⟨"alice", 0, "todoist.read", some 5⟩ else none, []⟩ "tok1").1 = none
    ∧ ((getTokenInfo 100 ⟨fun t => if t = "tok1" then some ⟨"alice", 0, "todoist.read", some 5⟩ else none, []⟩ "tok1").2).issued "tok1" = none
    ∧ isTokenAuthorized 100 ⟨fun t => if t = "tok1" then some ⟨"alice", 0, "todoist.read", some 5⟩ else none, []⟩ "tok1" = false :=
  (c8_token_expiry 100 ⟨fun t => if t = "tok1" then some ⟨"alice", 0, "todoist.read", some 5⟩ else none, []⟩
    "tok1" ⟨"alice", 0, "todoist.read", some 5⟩ rfl).1 5 rfl (by omega) (by omega)

/-- C3: PKCE verification at token exchange — when the authorization code
is found, unexpired, and matches the stored clientId and redirectUri, the
exchange succeeds (minting a token) only if the SHA256-base64url hash of
the supplied code_verifier (the hash being the Node crypto builtin, taken
here as an opaque function) equals the stored codeChallenge; on a mismatch
the request fails with HTTP 400, error invalid_grant and the PKCE-specific
description. -/
theorem c3_pkce_verification (sha256Base64Url : String → String) (now : Nat) (newToken : String)
    (st : OAuthStores) (req : TokenRequest) (record : AuthorizationCodeRecord)
    (hg : req.grantType = "authorization_code")
    (hc : req.code ≠ "") (hr : req.redirectUri ≠ "") (hcl : req.clientId ≠ "")
    (hv : req.codeVerifier ≠ "")
    (hrec : st.authorizationCodes req.code = some record)
    (hmc : record.clientId = req.clientId) (hmr : record.redirectUri = req.redirectUri)
    (hexp : now ≤ record.expiresAt) :
    ((oauthToken sha256Base64Url now newToken st req).1.isSuccess = true →
      sha256Base64Url req.codeVerifier = record.codeChallenge)
    ∧ (sha256Base64Url req.codeVerifier ≠ record.codeChallenge →
      (oauthToken sha256Base64Url now newToken st req).1
        = TokenResult.err 400 "invalid_grant" "PKCE verification failed") := by
  have hred : oauthToken sha256Base64Url now newToken st req =
      (if sha256Base64Url req.codeVerifier ≠ record.codeChallenge then
        (TokenResult.err 400 "invalid_grant" "PKCE verification failed", deleteAuthCode st req.code)
       else
        match st.registeredClients record.clientId with
        | none =>
          (TokenResult.err 400 "invalid_client" "Client is not registered",
           deleteAuthCode st req.code)
        | some _ =>
          (TokenResult.success newToken "Bearer" (ACCESS_TOKEN_TTL_MS / 1000) record.scope,
           setIssuedToken (deleteAuthCode st req.code) newToken
             ⟨record.user, now, record.scope, some (now + ACCESS_TOKEN_TTL_MS)⟩)) := by
    unfold oauthToken
    rw [if_neg (by simp [hg])]
    rw [if_neg (by simp [hc, hr, hcl, hv])]
    simp only [hrec]
    rw [if_neg (by simp [hmc, hmr])]
    rw [if_neg (by omega)]
  constructor
  · intro hsucc
    by_contra hne
    rw [hred, if_pos hne] at hsucc
    simp [TokenResult.isSuccess] at hsucc
  · intro hne
    rw [hred, if_pos hne]

/-- Witness for C3 at a concrete mismatched verifier. -/
theorem c3_pkce_verification_witness :
    (oauthToken (fun s => s) 0 "newtok"
      ⟨fun _ => none,
       fun k => if k = "CODE1" then
         some ⟨"client-1", "https://client.example/cb", "CH", "S256", "todoist.read", "alice", 0, 1000⟩
         else none,
       fun _ => none, fun _ => none⟩
      ⟨"authorization_code", "CODE1", "https://client.example/cb", "client-1", "WRONG"⟩).1
      = TokenResult.err 400 "invalid_grant" "PKCE verification failed" :=
  (c3_pkce_verification (fun s => s) 0 "newtok"
    ⟨fun _ => none,
     fun k => if k = "CODE1" then
       some ⟨"client-1", "https://client.example/cb", "CH", "S256", "todoist.read", "alice", 0, 1000⟩
       else none,
     fun _ => none, fun _ => none⟩
    ⟨"authorization_code", "CODE1", "https://client.example/cb", "client-1", "WRONG"⟩
    ⟨"client-1", "https://client.example/cb", "CH", "S256", "todoist.read", "alice", 0, 1000⟩
    rfl (by decide) (by decide) (by decide) (by decide) rfl rfl rfl (by omega)).2 (by decide)

/-- C2 counterexample: a token-exchange attempt that names the stored
authorization code CODE1 but omits the code_verifier (empty string, falsy
in the source) is rejected as invalid_request BEFORE the code lookup, and
the AuthorizationCodeRecord is NOT deleted — refuting the claim that every
exchange attempt naming a code deletes its record. -/
theorem c2_counterexample :
    (oauthToken (fun s => s) 0 "newtok"
      ⟨fun _ => none,
       fun k => if k = "CODE1" then
         some ⟨"client-1", "https://client.example/cb", "CH", "S256", "todoist.read", "alice", 0, 1000⟩
         else none,
       fun _ => none, fun _ => none⟩
      ⟨"authorization_code", "CODE1", "https://client.example/cb", "client-1", ""⟩).1
      = TokenResult.err 400 "invalid_request"
          "code, redirect_uri, client_id, and code_verifier are required"
    ∧ ((oauthToken (fun s => s) 0 "newtok"
      ⟨fun _ => none,
       fun k => if k = "CODE1" then
         some ⟨"client-1", "https://client.example/cb", "CH", "S256", "todoist.read", "alice", 0, 1000⟩
         else none,
       fun _ => none, fun _ => none⟩
      ⟨"authorization_code", "CODE1", "https://client.example/cb", "client-1", ""⟩).2).authorizationCodes "CODE1"
      = some ⟨"client-1", "https://client.example/cb", "CH", "S256", "todoist.read", "alice", 0, 1000⟩ :=
  ⟨rfl, rfl⟩

/-- C2 (amended): every token-exchange attempt that passes the grant-type
and required-parameter checks and names a stored authorization code
deletes the record whether the attempt succeeds or fails, and any repeat
well-formed exchange naming that code fails with invalid_grant. -/
theorem c2_code_single_use (sha256Base64Url : String → String) (now : Nat) (newToken : String)
    (st : OAuthStores) (req : TokenRequest) (record : AuthorizationCodeRecord)
    (hg : req.grantType = "authorization_code")
    (hc : req.code ≠ "") (hr : req.redirectUri ≠ "") (hcl : req.clientId ≠ "")
    (hv : req.codeVerifier ≠ "")
    (hrec : st.authorizationCodes req.code = some record) :
    ((oauthToken sha256Base64Url now newToken st req).2).authorizationCodes req.code = none
    ∧ (∀ (now2 : Nat) (newToken2 : String) (req2 : TokenRequest), req2.code = req.code →
        req2.grantType = "authorization_code" → req2.redirectUri ≠ "" → req2.clientId ≠ "" →
        req2.codeVerifier ≠ "" →
        (oauthToken sha256Base64Url now2 newToken2
          (oauthToken sha256Base64Url now newToken st req).2 req2).1
          = TokenResult.err 400 "invalid_grant" "Unknown authorization code") := by
  have hpart1 : ((oauthToken sha256Base64Url now newToken st req).2).authorizationCodes req.code = none := by
    unfold oauthToken
    rw [if_neg (by simp [hg]), if_neg (by simp [hc, hr, hcl, hv])]
    simp only [hrec]
    split
    · simp [deleteAuthCode]
    · split
      · simp [deleteAuthCode]
      · split
        · simp [deleteAuthCode]
        · split
          · simp [deleteAuthCode]
          · simp [setIssuedToken, deleteAuthCode]
  refine ⟨hpart1, ?_⟩
  intro now2 newToken2 req2 he hg2 hr2 hcl2 hv2
  have hc2 : req2.code ≠ "" := by rw [he]; exact hc
  have h1 : ((oauthToken sha256Base64Url now newToken st req).2).authorizationCodes req2.code = none := by
    rw [he]; exact hpart1
  generalize hgen : (oauthToken sha256Base64Url now newToken st req).2 = st2 at h1 ⊢
  unfold oauthToken
  rw [if_neg (by simp [hg2]), if_neg (by simp [hc2, hr2, hcl2, hv2])]
  simp only [h1]

/-- Witness for C2 (amended) at a concrete exchange. -/
theorem c2_code_single_use_witness :
    ((oauthToken (fun s => s) 0 "newtok"
      ⟨fun _ => none,
       fun k => if k = "CODE1" then
         some ⟨"client-1", "https://client.example/cb", "CH", "S256", "todoist.read", "alice", 0, 1000⟩
         else none,
       fun _ => none, fun _ => none⟩
      ⟨"authorization_code", "CODE1", "https://client.example/cb", "client-1", "V"⟩).2).authorizationCodes "CODE1" = none
    ∧ (oauthToken (fun s => s) 5 "tok2"
        ((oauthToken (fun s => s) 0 "newtok"
          ⟨fun _ => none,
           fun k => if k = "CODE1" then
             some ⟨"client-1", "https://client.example/cb", "CH", "S256", "todoist.read", "alice", 0, 1000⟩
             else none,
           fun _ => none, fun _ => none⟩
          ⟨"authorization_code", "CODE1", "https://client.example/cb", "client-1", "V"⟩).2)
        ⟨"authorization_code", "CODE1", "https://client.example/cb", "client-1", "V"⟩).1
      = TokenResult.err 400 "invalid_grant" "Unknown authorization code" :=
  ⟨(c2_code_single_use (fun s => s) 0 "newtok"
      ⟨fun _ => none,
       fun k => if k = "CODE1" then
         some ⟨"client-1", "https://client.example/cb", "CH", "S256", "todoist.read", "alice", 0, 1000⟩
         else none,
       fun _ => none, fun _ => none⟩
      ⟨"authorization_code", "CODE1", "https://client.example/cb", "client-1", "V"⟩
      ⟨"client-1", "https://client.example/cb", "CH", "S256", "todoist.read", "alice", 0, 1000⟩
      rfl (by decide) (by decide) (by decide) (by decide) rfl).1,
   (c2_code_single_use (fun s => s) 0 "newtok"
      ⟨fun _ => none,
       fun k => if k = "CODE1" then
         some ⟨"client-1", "https://client.example/cb", "CH", "S256", "todoist.read", "alice", 0, 1000⟩
         else none,
       fun _ => none, fun _ => none⟩
      ⟨"authorization_code", "CODE1", "https://client.example/cb", "client-1", "V"⟩
      ⟨"client-1", "https://client.example/cb", "CH", "S256", "todoist.read", "alice", 0, 1000⟩
      rfl (by decide) (by decide) (by decide) (by decide) rfl).2
     5 "tok2" ⟨"authorization_code", "CODE1", "https://client.example/cb", "client-1", "V"⟩
     rfl rfl (by decide) (by decide) (by decide)⟩

/-- C5: idempotent mapping — when a first resolution of a legacy id has
successfully produced (and therefore cached) a canonical mapping, a second
resolution of the same id issues zero upstream calls and returns exactly
the same canonical value, leaving the cache unchanged. -/
theorem c5_idempotent_mapping (fetch : String → List String → Option (List (String × String)))
    (rt : String) (cache : IdCache) (l u : String)
    (h : lookupPairs (mapLegacyIdsToUlids fetch rt cache [l]).1 l = some u) :
    mapLegacyIdsToUlids fetch rt ((mapLegacyIdsToUlids fetch rt cache [l]).2.1) [l]
      = ([(l, u)], (mapLegacyIdsToUlids fetch rt cache [l]).2.1, 0) := by
  have hc1 : ((mapLegacyIdsToUlids fetch rt cache [l]).2.1) l = some u := by
    cases hcl : cache l with
    | some v =>
      have hred : mapLegacyIdsToUlids fetch rt cache [l] = ([(l, v)], cache, 0) := by
        unfold mapLegacyIdsToUlids
        simp [hcl]
      rw [hred] at h
      simp [lookupPairs] at h
      rw [hred]
      simpa [hcl] using h
    | none =>
      cases hf : fetch rt [l] with
      | none =>
        have hred : mapLegacyIdsToUlids fetch rt cache [l] = ([], cache, 1) := by
          unfold mapLegacyIdsToUlids
          simp [hcl, hf]
        rw [hred] at h
        simp [lookupPairs] at h
      | some ms =>
        have hred : mapLegacyIdsToUlids fetch rt cache [l]
            = ([l].filterMap (fun id =>
                ((ms.foldl (fun c p => cacheSet c p.1 p.2) cache) id).map (fun w => (id, w))),
               ms.foldl (fun c p => cacheSet c p.1 p.2) cache, 1) := by
          unfold mapLegacyIdsToUlids
          simp [hcl, hf]
        rw [hred] at h ⊢
        cases hc2 : (ms.foldl (fun c p => cacheSet c p.1 p.2) cache) l with
        | none => simp [lookupPairs, hc2] at h
        | some w =>
          simp [lookupPairs, hc2] at h
          simp [hc2, h]
  generalize (mapLegacyIdsToUlids fetch rt cache [l]).2.1 = c1 at hc1 ⊢
  unfold mapLegacyIdsToUlids
  simp [hc1]

/-- Witness for C5 at a concrete id and upstream mapping. -/
theorem c5_idempotent_mapping_witness :
    mapLegacyIdsToUlids (fun _ _ => some [("123", "01J0M8KPV7Z2F4S9DX3T8HCN8F")]) "tasks"
        ((mapLegacyIdsToUlids (fun _ _ => some [("123", "01J0M8KPV7Z2F4S9DX3T8HCN8F")]) "tasks"
          emptyCache ["123"]).2.1) ["123"]
      = ([("123", "01J0M8KPV7Z2F4S9DX3T8HCN8F")],
         (mapLegacyIdsToUlids (fun _ _ => some [("123", "01J0M8KPV7Z2F4S9DX3T8HCN8F")]) "tasks"
           emptyCache ["123"]).2.1, 0) :=
  c5_idempotent_mapping (fun _ _ => some [("123", "01J0M8KPV7Z2F4S9DX3T8HCN8F")]) "tasks"
    emptyCache "123" "01J0M8KPV7Z2F4S9DX3T8HCN8F" rfl

/-- C4: move fallback trigger — for a move of an existing task with a
non-empty option set, a primary (REST v2 relocate) response of HTTP 404
makes the orchestrator invoke the Sync-API fallback exactly once with a
command whose args carry exactly the payload field set; any other
non-success status triggers no fallback invocation and surfaces the
primary error. -/
theorem c4_move_fallback (primary : HttpResponse) (syncResp : SyncResponse)
    (taskId : String) (options : MoveOptions) (payload : MovePayload)
    (hid : ensureUlid taskId "task_id" = Except.ok taskId)
    (hp : buildMovePayload options = Except.ok payload)
    (hne : payload.isEmpty = false) :
    (primary.status = 404 →
      (moveTodoistTask true primary syncResp taskId options).syncInvocations
        = [buildSyncCommandArgs taskId payload]
      ∧ buildSyncCommandArgs taskId payload
        = ⟨taskId, payload.project_id, payload.section_id, payload.parent_id⟩)
    ∧ (primary.isOk = false → primary.status ≠ 404 →
      (moveTodoistTask true primary syncResp taskId options).syncInvocations = []
      ∧ (moveTodoistTask true primary syncResp taskId options).result
        = Except.error (moveFailedMsg primary taskId)) := by
  constructor
  · intro h404
    have hok : primary.isOk = false := by
      unfold HttpResponse.isOk
      rw [h404]
      decide
    have hred : moveTodoistTask true primary syncResp taskId options
        = ⟨(moveTodoistTaskViaSyncApi syncResp taskId).map MoveOutcome.fallbackOk,
           [buildSyncCommandArgs taskId payload]⟩ := by
      unfold moveTodoistTask
      rw [hid]
      simp only [Bool.not_true, Bool.false_eq_true, if_false, hp]
      rw [if_neg (by rw [hne]; exact Bool.false_ne_true)]
      rw [if_neg (by rw [hok]; exact Bool.false_ne_true)]
      rw [if_pos h404]
    rw [hred]
    exact ⟨rfl, rfl⟩
  · intro hok h404
    have hred : moveTodoistTask true primary syncResp taskId options
        = ⟨Except.error (moveFailedMsg primary taskId), []⟩ := by
      unfold moveTodoistTask
      rw [hid]
      simp only [Bool.not_true, Bool.false_eq_true, if_false, hp]
      rw [if_neg (by rw [hne]; exact Bool.false_ne_true)]
      rw [if_neg (by rw [hok]; exact Bool.false_ne_true)]
      rw [if_neg h404]
    rw [hred]
    exact ⟨rfl, rfl⟩

/-- Witness for C4 at a concrete 404 and a concrete 500 primary response. -/
theorem c4_move_fallback_witness :
    (moveTodoistTask true ⟨404, "not found"⟩ ⟨⟨200, "synced"⟩, some "ok"⟩ "2995104339"
       ⟨some (some "01J0M8KPV7Z2F4S9DX3T8HCN8F"), some none, none⟩).syncInvocations
      = [⟨"2995104339", some (some "01J0M8KPV7Z2F4S9DX3T8HCN8F"), some none, none⟩]
    ∧ (moveTodoistTask true ⟨500, "boom"⟩ ⟨⟨200, "synced"⟩, some "ok"⟩ "2995104339"
       ⟨some (some "01J0M8KPV7Z2F4S9DX3T8HCN8F"), some none, none⟩).syncInvocations = []
    ∧ (moveTodoistTask true ⟨500, "boom"⟩ ⟨⟨200, "synced"⟩, some "ok"⟩ "2995104339"
       ⟨some (some "01J0M8KPV7Z2F4S9DX3T8HCN8F"), some none, none⟩).result
      = Except.error (moveFailedMsg ⟨500, "boom"⟩ "2995104339") :=
  ⟨((c4_move_fallback ⟨404, "not found"⟩ ⟨⟨200, "synced"⟩, some "ok"⟩ "2995104339"
      ⟨some (some "01J0M8KPV7Z2F4S9DX3T8HCN8F"), some none, none⟩
      ⟨some (some "01J0M8KPV7Z2F4S9DX3T8HCN8F"), some none, none⟩ rfl rfl rfl).1 rfl).1,
   ((c4_move_fallback ⟨500, "boom"⟩ ⟨⟨200, "synced"⟩, some "ok"⟩ "2995104339"
      ⟨some (some "01J0M8KPV7Z2F4S9DX3T8HCN8F"), some none, none⟩
      ⟨some (some "01J0M8KPV7Z2F4S9DX3T8HCN8F"), some none, none⟩ rfl rfl rfl).2
      (by decide) (by decide)).1,
   ((c4_move_fallback ⟨500, "boom"⟩ ⟨⟨200, "synced"⟩, some "ok"⟩ "2995104339"
      ⟨some (some "01J0M8KPV7Z2F4S9DX3T8HCN8F"), some none, none⟩
      ⟨some (some "01J0M8KPV7Z2F4S9DX3T8HCN8F"), some none, none⟩ rfl rfl rfl).2
      (by decide) (by decide)).2⟩

/-- C9: auto-registration is not atomic with authorize validation — a GET
/oauth/authorize request with an unknown client_id, a redirect_uri the URL
parser accepts, and a requested scope containing a value outside the
globally allowed scope set fails with error invalid_scope, yet afterwards
the client registry holds a RegisteredClient for that client_id whose
scope is the requested (unsanitized, whitespace-normalized) scope and
whose redirectUris is exactly the supplied redirect_uri. -/
theorem c9_autoregistration_mutation (isValidUrl : String → Bool) (githubConfigured : Bool)
    (autoRegToken githubState : String) (now : Nat) (st : OAuthStores) (req : AuthorizeRequest)
    (bad : String)
    (hrt : asciiLower (if req.responseType = "" then "code" else req.responseType) = "code")
    (hcl : req.clientId ≠ "") (hr : req.redirectUri ≠ "") (hs : req.state ≠ "")
    (hch : req.codeChallenge ≠ "")
    (hm : asciiUpper (if req.codeChallengeMethod = "" then "S256" else req.codeChallengeMethod) = "S256")
    (hu : st.registeredClients req.clientId = none)
    (hurl : isValidUrl req.redirectUri = true)
    (htrim : jsTrim req.scope = req.scope) (hscope : req.scope ≠ "")
    (hround : splitWs (joinScopes (splitWs req.scope)) = splitWs req.scope)
    (hbad : bad ∈ splitWs req.scope) (hbadscope : bad ∉ SCOPES) :
    (oauthAuthorize isValidUrl githubConfigured autoRegToken githubState now st req).1
      = AuthorizeResult.err 400 "invalid_scope"
          ("Unsupported scope(s): " ++ String.intercalate ", "
            ((splitWs req.scope).filter (fun s => !(SCOPES.contains s))))
    ∧ ((oauthAuthorize isValidUrl githubConfigured autoRegToken githubState now st req).2).registeredClients req.clientId
      = some ⟨req.clientId, none, [req.redirectUri], joinScopes (splitWs req.scope), "none",
          now / 1000, some 0, autoRegToken⟩ := by
  have hnonempty : (splitWs req.scope).isEmpty = false := by
    cases hsplit : splitWs req.scope with
    | nil => rw [hsplit] at hbad; simp at hbad
    | cons a l => simp
  have hinvreq : (splitWs req.scope).filter (fun s => !((splitWs req.scope).contains s)) = [] := by
    rw [List.filter_eq_nil_iff]
    intro a ha
    simp [List.elem_iff]
    exact ha
  have hinvne : ((splitWs req.scope).filter (fun s => !(SCOPES.contains s))).isEmpty = false := by
    have hmem : bad ∈ (splitWs req.scope).filter (fun s => !(SCOPES.contains s)) := by
      rw [List.mem_filter]
      refine ⟨hbad, ?_⟩
      simp [List.elem_iff]
      exact hbadscope
    cases hsplit : (splitWs req.scope).filter (fun s => !(SCOPES.contains s)) with
    | nil => rw [hsplit] at hmem; simp at hmem
    | cons a l => simp
  have hsc : (if jsTrim req.scope ≠ "" then jsTrim req.scope else DEFAULT_SCOPE) = req.scope := by
    rw [htrim, if_pos hscope]
  unfold oauthAuthorize
  rw [if_neg (by rw [hrt]; simp)]
  rw [if_neg (by simp [hcl, hr, hs, hch])]
  rw [if_neg (by rw [hm]; simp)]
  rw [if_neg (by simp [hu, hurl])]
  simp only [hu]
  rw [if_neg (by simp)]
  simp only [hsc, hnonempty, Bool.false_eq_true, if_false, hround, hinvreq,
    List.isEmpty_nil, Bool.not_true, if_true, hinvne, Bool.not_false, if_false]
  constructor
  · trivial
  · simp [setClient]

/-- Witness for C9 at a concrete disallowed scope. -/
theorem c9_autoregistration_mutation_witness :
    (oauthAuthorize (fun _ => true) true "auto-tok" "gh-state" 1000
      ⟨fun _ => none, fun _ => none, fun _ => none, fun _ => none⟩
      ⟨"code", "client-9", "https://client.example/cb", "s1", "CH", "S256", "evil.scope"⟩).1
      = AuthorizeResult.err 400 "invalid_scope"
          ("Unsupported scope(s): " ++ String.intercalate ", "
            ((splitWs "evil.scope").filter (fun s => !(SCOPES.contains s))))
    ∧ ((oauthAuthorize (fun _ => true) true "auto-tok" "gh-state" 1000
      ⟨fun _ => none, fun _ => none, fun _ => none, fun _ => none⟩
      ⟨"code", "client-9", "https://client.example/cb", "s1", "CH", "S256", "evil.scope"⟩).2).registeredClients "client-9"
      = some ⟨"client-9", none, ["https://client.example/cb"], joinScopes (splitWs "evil.scope"), "none",
          1, some 0, "auto-tok"⟩ :=
  c9_autoregistration_mutation (fun _ => true) true "auto-tok" "gh-state" 1000
    ⟨fun _ => none, fun _ => none, fun _ => none, fun _ => none⟩
    ⟨"code", "client-9", "https://client.example/cb", "s1", "CH", "S256", "evil.scope"⟩
    "evil.scope" (by decide) (by decide) (by decide) (by decide) (by decide) (by decide)
    rfl rfl (by decide) (by decide) (by decide) (by decide) (by decide)

/-- C7 counterexample: a batch holding one task whose id is the
26-character all-digit string (Canonical-shaped, since digits belong to
the ULID alphabet) and whose cross-references are absent is classified
legacy by the normalizer, which issues one upstream resolver call instead
of zero — refuting the claimed no-op on canonical input. -/
theorem c7_counterexample :
    specAllCanonicalShaped [⟨"11111111111111111111111111", none, none, none⟩]
    ∧ (convertTaskIdsToUlids (fun _ _ => none) emptyCache
        [⟨"11111111111111111111111111", none, none, none⟩]).2.2 = 1 :=
  ⟨by decide, rfl⟩

/-- C7 (amended): the normalizer is a no-op on a batch of entities none
of whose ids or populated cross-reference fields is legacy-numeric-shaped
— in particular on Canonical-shaped ids that are not all-digit strings.
The batch is returned unchanged, the cache is untouched and zero upstream
resolver calls are issued. (A 26-character all-digit id is
Canonical-shaped yet classified legacy, see the counterexample.) -/
theorem c7_normalizer_noop (fetch : String → List String → Option (List (String × String)))
    (cache : IdCache) (tasks : List TaskEntity)
    (h : ∀ t ∈ tasks, isLegacyNumericId (some t.id) = false
      ∧ isLegacyNumericId t.projectId = false
      ∧ isLegacyNumericId t.sectionId = false
      ∧ isLegacyNumericId t.parentId = false) :
    convertTaskIdsToUlids fetch cache tasks = (tasks, cache, 0) := by
  have htids : legacyTaskIdsOf tasks = [] := by
    unfold legacyTaskIdsOf
    rw [List.filter_eq_nil_iff]
    intro a ha
    rw [List.mem_map] at ha
    obtain ⟨t, ht, rfl⟩ := ha
    simp [(h t ht).1]
  have hrefs : ∀ (f : TaskEntity → Option String),
      (∀ t ∈ tasks, isLegacyNumericId (f t) = false) → legacyRefIdsOf f tasks = [] := by
    intro f hf
    unfold legacyRefIdsOf
    rw [List.filter_eq_nil_iff]
    intro a ha
    rw [List.mem_filterMap] at ha
    obtain ⟨t, ht, hft⟩ := ha
    have hleg := hf t ht
    rw [hft] at hleg
    simp [hleg]
  have hp := hrefs TaskEntity.projectId (fun t ht => (h t ht).2.1)
  have hs := hrefs TaskEntity.sectionId (fun t ht => (h t ht).2.2.1)
  have hq := hrefs TaskEntity.parentId (fun t ht => (h t ht).2.2.2)
  have happ : ∀ t : TaskEntity, applyTaskMappings [] [] [] [] t = t := by
    intro t
    obtain ⟨tid, p, s, q⟩ := t
    have hl : ∀ x : String, lookupPairs [] x = none := fun _ => rfl
    unfold applyTaskMappings
    simp only [hl]
    cases p <;> cases s <;> cases q <;> simp
  unfold convertTaskIdsToUlids
  simp only [htids, hp, hs, hq, resolveFieldIds, List.isEmpty_nil, if_true, happ]
  rw [funext happ]
  simp

/-- Witness for C7 (amended) at a concrete canonical batch. -/
theorem c7_normalizer_noop_witness :
    convertTaskIdsToUlids (fun _ _ => none) emptyCache
      [⟨"01J0M8KPV7Z2F4S9DX3T8HCN8F", some "01J0M8KPV7Z2F4S9DX3T8HCN8G", none, none⟩]
      = ([⟨"01J0M8KPV7Z2F4S9DX3T8HCN8F", some "01J0M8KPV7Z2F4S9DX3T8HCN8G", none, none⟩],
         emptyCache, 0) :=
  c7_normalizer_noop (fun _ _ => none) emptyCache
    [⟨"01J0M8KPV7Z2F4S9DX3T8HCN8F", some "01J0M8KPV7Z2F4S9DX3T8HCN8G", none, none⟩]
    (by decide)

/-- Promise.all resolves to the per-item results when every per-item
computation resolves. -/
theorem promiseAll_ok {α β : Type} (p : α → Except String β) (f : α → β) :
    ∀ l : List α, (∀ a ∈ l, p a = Except.ok (f a)) → promiseAll p l = Except.ok (l.map f)
  | [], _ => rfl
  | a :: l, h => by
    unfold promiseAll
    rw [h a (List.mem_cons_self a l)]
    rw [promiseAll_ok p f l (fun x hx => h x (List.mem_cons_of_mem a hx))]
    rfl

/-- Promise.all rejects when some per-item computation rejects. -/
theorem promiseAll_isOk_false {α β : Type} (p : α → Except String β) :
    ∀ l : List α, (∃ a ∈ l, (p a).isOk = false) → (promiseAll p l).isOk = false
  | [], h => by
    obtain ⟨a, ha, _⟩ := h
    exact absurd ha (List.not_mem_nil a)
  | a :: l, h => by
    unfold promiseAll
    cases hpa : p a with
    | error e => rfl
    | ok b =>
      obtain ⟨x, hx, hbad⟩ := h
      rcases List.mem_cons.mp hx with rfl | hx2
      · rw [hpa] at hbad
        simp [Except.isOk, Except.toBool] at hbad
      · have hrec := promiseAll_isOk_false p l ⟨x, hx2, hbad⟩
        cases hr : promiseAll p l with
        | error e => rfl
        | ok rs =>
          rw [hr] at hrec
          simp [Except.isOk, Except.toBool] at hrec

/-- An accepted identifier is returned unchanged by ensureUlid. -/
theorem ensureUlid_ok_eq (v f : String) (h : (ensureUlid v f).isOk = true) :
    ensureUlid v f = Except.ok v := by
  unfold ensureUlid at h ⊢
  by_cases hb : (ulidRegexTest v || legacyNumericRegexTest v) = true
  · rw [if_pos hb]
  · rw [if_neg hb] at h
    simp [Except.isOk, Except.toBool] at h

/-- An accepted string is returned unchanged by ensureString. -/
theorem ensureString_ok_eq (v f : String) (h : (ensureString v f).isOk = true) :
    ensureString v f = Except.ok v := by
  unfold ensureString at h ⊢
  by_cases hb : jsTrim v = ""
  · rw [if_pos hb] at h
    simp [Except.isOk, Except.toBool] at h
  · rw [if_neg hb]

/-- C1 counterexample: a two-item todoist_delete_task batch whose second
item carries the invalid identifier abc-123 makes the whole handler throw
(the ensureUlid validation runs before the per-item try), so the caller
receives the bare success:false error object — not the batch-summary
envelope — and the valid sibling item is not reported. -/
theorem c1_counterexample :
    dispatchTool (handleDeleteTasks
      [⟨"2995104339", UpstreamOutcome.ok⟩, ⟨"abc-123", UpstreamOutcome.ok⟩])
      = ToolResponse.bare false (ensureUlidErrMsg "tasks[].task_id") true :=
  rfl

/-- C1 (amended): per-item upstream failures are isolated in every batch
tool — each failing item gets its own result entry, siblings are still
processed and the caller receives the batch-summary envelope; an invalid
identifier is isolated per-item only for todoist_create_task, whose
identifier validation runs inside the per-item error boundary. For the
seven other batch tools an item that fails the pre-try argument
validation (invalid identifier, or empty string field) aborts the entire
call, which then returns the bare error object instead of the envelope. -/
theorem c1_batch_isolation :
    (∀ items : List CreateTaskItem, items ≠ [] →
      dispatchTool (handleCreateTasks items)
        = buildBatchResponse (items.map createTaskEntry) items.length)
    ∧ (∀ items : List UpdateTaskItem, items ≠ [] →
        (∀ it ∈ items, (ensureUlid it.taskId "tasks[].task_id").isOk = true) →
        dispatchTool (handleUpdateTasks items)
          = buildBatchResponse (items.map (fun it => taskIdEntry it.taskId it.inTry)) items.length)
    ∧ (∀ items : List DeleteTaskItem, items ≠ [] →
        (∀ it ∈ items, (ensureUlid it.taskId "tasks[].task_id").isOk = true) →
        dispatchTool (handleDeleteTasks items)
          = buildBatchResponse (items.map (fun it => taskIdEntry it.taskId it.upstream)) items.length)
    ∧ (∀ items : List DeleteTaskItem, items ≠ [] →
        (∀ it ∈ items, (ensureUlid it.taskId "tasks[].task_id").isOk = true) →
        dispatchTool (handleCompleteTasks items)
          = buildBatchResponse (items.map (fun it => taskIdEntry it.taskId it.upstream)) items.length)
    ∧ (∀ items : List DeleteTaskItem, items ≠ [] →
        (∀ it ∈ items, (ensureUlid it.taskId "tasks[].task_id").isOk = true) →
        dispatchTool (handleGetTaskComments items)
          = buildBatchResponse (items.map (fun it => taskIdEntry it.taskId it.upstream)) items.length)
    ∧ (∀ items : List CommentItem, items ≠ [] →
        (∀ it ∈ items, (ensureUlid it.taskId "comments[].task_id").isOk = true
          ∧ (ensureString it.content "comments[].content").isOk = true) →
        dispatchTool (handleCreateTaskComments items)
          = buildBatchResponse (items.map (fun it => taskIdEntry it.taskId it.upstream)) items.length)
    ∧ (∀ items : List SectionCreateItem, items ≠ [] →
        (∀ it ∈ items, (ensureUlid it.projectId "sections[].project_id").isOk = true
          ∧ (ensureString it.name "sections[].name").isOk = true) →
        dispatchTool (handleCreateSections items)
          = buildBatchResponse (items.map (fun it => taskIdEntry it.projectId it.upstream)) items.length)
    ∧ (∀ items : List SectionRenameItem, items ≠ [] →
        (∀ it ∈ items, (ensureUlid it.sectionId "sections[].section_id").isOk = true
          ∧ (ensureString it.newName "sections[].new_name").isOk = true) →
        dispatchTool (handleRenameSections items)
          = buildBatchResponse (items.map (fun it => taskIdEntry it.sectionId it.upstream)) items.length)
    ∧ (∀ items : List UpdateTaskItem,
        (∃ it ∈ items, (ensureUlid it.taskId "tasks[].task_id").isOk = false) →
        (dispatchTool (handleUpdateTasks items)).isEnvelope = false)
    ∧ (∀ items : List DeleteTaskItem,
        (∃ it ∈ items, (ensureUlid it.taskId "tasks[].task_id").isOk = false) →
        (dispatchTool (handleDeleteTasks items)).isEnvelope = false)
    ∧ (∀ items : List DeleteTaskItem,
        (∃ it ∈ items, (ensureUlid it.taskId "tasks[].task_id").isOk = false) →
        (dispatchTool (handleCompleteTasks items)).isEnvelope = false)
    ∧ (∀ items : List DeleteTaskItem,
        (∃ it ∈ items, (ensureUlid it.taskId "tasks[].task_id").isOk = false) →
        (dispatchTool (handleGetTaskComments items)).isEnvelope = false)
    ∧ (∀ items : List CommentItem,
        (∃ it ∈ items, (ensureUlid it.taskId "comments[].task_id").isOk = false
          ∨ (ensureString it.content "comments[].content").isOk = false) →
        (dispatchTool (handleCreateTaskComments items)).isEnvelope = false)
    ∧ (∀ items : List SectionCreateItem,
        (∃ it ∈ items, (ensureUlid it.projectId "sections[].project_id").isOk = false
          ∨ (ensureString it.name "sections[].name").isOk = false) →
        (dispatchTool (handleCreateSections items)).isEnvelope = false)
    ∧ (∀ items : List SectionRenameItem,
        (∃ it ∈ items, (ensureUlid it.sectionId "sections[].section_id").isOk = false
          ∨ (ensureString it.newName "sections[].new_name").isOk = false) →
        (dispatchTool (handleRenameSections items)).isEnvelope = false) := by
  refine ⟨?_, ?_, ?_, ?_, ?_, ?_, ?_, ?_, ?_, ?_, ?_, ?_, ?_, ?_, ?_⟩
  · intro items hne
    unfold handleCreateTasks
    rw [if_neg (by simp [hne])]
    rw [promiseAll_ok processCreateTaskItem createTaskEntry items (fun it _ => rfl)]
    rfl
  · intro items hne hval
    unfold handleUpdateTasks
    rw [if_neg (by simp [hne])]
    rw [promiseAll_ok processUpdateTaskItem (fun it => taskIdEntry it.taskId it.inTry) items
      (fun it hit => by
        unfold processUpdateTaskItem
        rw [ensureUlid_ok_eq _ _ (hval it hit)])]
    rfl
  · intro items hne hval
    unfold handleDeleteTasks
    rw [if_neg (by simp [hne])]
    rw [promiseAll_ok processDeleteTaskItem (fun it => taskIdEntry it.taskId it.upstream) items
      (fun it hit => by
        unfold processDeleteTaskItem
        rw [ensureUlid_ok_eq _ _ (hval it hit)])]
    rfl
  · intro items hne hval
    unfold handleCompleteTasks
    rw [if_neg (by simp [hne])]
    rw [promiseAll_ok processCompleteTaskItem (fun it => taskIdEntry it.taskId it.upstream) items
      (fun it hit => by
        unfold processCompleteTaskItem
        rw [ensureUlid_ok_eq _ _ (hval it hit)])]
    rfl
  · intro items hne hval
    unfold handleGetTaskComments
    rw [if_neg (by simp [hne])]
    rw [promiseAll_ok processGetCommentsItem (fun it => taskIdEntry it.taskId it.upstream) items
      (fun it hit => by
        unfold processGetCommentsItem
        rw [ensureUlid_ok_eq _ _ (hval it hit)])]
    rfl
  · intro items hne hval
    unfold handleCreateTaskComments
    rw [if_neg (by simp [hne])]
    rw [promiseAll_ok processCreateCommentItem (fun it => taskIdEntry it.taskId it.upstream) items
      (fun it hit => by
        unfold processCreateCommentItem
        rw [ensureUlid_ok_eq _ _ (hval it hit).1, ensureString_ok_eq _ _ (hval it hit).2])]
    rfl
  · intro items hne hval
    unfold handleCreateSections
    rw [if_neg (by simp [hne])]
    rw [promiseAll_ok processCreateSectionItem (fun it => taskIdEntry it.projectId it.upstream) items
      (fun it hit => by
        unfold processCreateSectionItem
        rw [ensureUlid_ok_eq _ _ (hval it hit).1, ensureString_ok_eq _ _ (hval it hit).2])]
    rfl
  · intro items hne hval
    unfold handleRenameSections
    rw [if_neg (by simp [hne])]
    rw [promiseAll_ok processRenameSectionItem (fun it => taskIdEntry it.sectionId it.upstream) items
      (fun it hit => by
        unfold processRenameSectionItem
        rw [ensureUlid_ok_eq _ _ (hval it hit).1, ensureString_ok_eq _ _ (hval it hit).2])]
    rfl
  · intro items h
    obtain ⟨it, hit, hbad⟩ := h
    have hne : items ≠ [] := fun he => absurd (he ▸ hit) (List.not_mem_nil it)
    unfold handleUpdateTasks
    rw [if_neg (by simp [hne])]
    have hfail : (promiseAll processUpdateTaskItem items).isOk = false :=
      promiseAll_isOk_false _ items ⟨it, hit, by
        unfold processUpdateTaskItem
        cases he : ensureUlid it.taskId "tasks[].task_id" with
        | error e => rfl
        | ok v =>
          rw [he] at hbad
          simp [Except.isOk, Except.toBool] at hbad⟩
    cases hres : promiseAll processUpdateTaskItem items with
    | error e => rfl
    | ok rs =>
      rw [hres] at hfail
      simp [Except.isOk, Except.toBool] at hfail
  · intro items h
    obtain ⟨it, hit, hbad⟩ := h
    have hne : items ≠ [] := fun he => absurd (he ▸ hit) (List.not_mem_nil it)
    unfold handleDeleteTasks
    rw [if_neg (by simp [hne])]
    have hfail : (promiseAll processDeleteTaskItem items).isOk = false :=
      promiseAll_isOk_false _ items ⟨it, hit, by
        unfold processDeleteTaskItem
        cases he : ensureUlid it.taskId "tasks[].task_id" with
        | error e => rfl
        | ok v =>
          rw [he] at hbad
          simp [Except.isOk, Except.toBool] at hbad⟩
    cases hres : promiseAll processDeleteTaskItem items with
    | error e => rfl
    | ok rs =>
      rw [hres] at hfail
      simp [Except.isOk, Except.toBool] at hfail
  · intro items h
    obtain ⟨it, hit, hbad⟩ := h
    have hne : items ≠ [] := fun he => absurd (he ▸ hit) (List.not_mem_nil it)
    unfold handleCompleteTasks
    rw [if_neg (by simp [hne])]
    have hfail : (promiseAll processCompleteTaskItem items).isOk = false :=
      promiseAll_isOk_false _ items ⟨it, hit, by
        unfold processCompleteTaskItem
        cases he : ensureUlid it.taskId "tasks[].task_id" with
        | error e => rfl
        | ok v =>
          rw [he] at hbad
          simp [Except.isOk, Except.toBool] at hbad⟩
    cases hres : promiseAll processCompleteTaskItem items with
    | error e => rfl
    | ok rs =>
      rw [hres] at hfail
      simp [Except.isOk, Except.toBool] at hfail
  · intro items h
    obtain ⟨it, hit, hbad⟩ := h
    have hne : items ≠ [] := fun he => absurd (he ▸ hit) (List.not_mem_nil it)
    unfold handleGetTaskComments
    rw [if_neg (by simp [hne])]
    have hfail : (promiseAll processGetCommentsItem items).isOk = false :=
      promiseAll_isOk_false _ items ⟨it, hit, by
        unfold processGetCommentsItem
        cases he : ensureUlid it.taskId "tasks[].task_id" with
        | error e => rfl
        | ok v =>
          rw [he] at hbad
          simp [Except.isOk, Except.toBool] at hbad⟩
    cases hres : promiseAll processGetCommentsItem items with
    | error e => rfl
    | ok rs =>
      rw [hres] at hfail
      simp [Except.isOk, Except.toBool] at hfail
  · intro items h
    obtain ⟨it, hit, hbad⟩ := h
    have hne : items ≠ [] := fun he => absurd (he ▸ hit) (List.not_mem_nil it)
    unfold handleCreateTaskComments
    rw [if_neg (by simp [hne])]
    have hfail : (promiseAll processCreateCommentItem items).isOk = false :=
      promiseAll_isOk_false _ items ⟨it, hit, by
        unfold processCreateCommentItem
        cases he : ensureUlid it.taskId "comments[].task_id" with
        | error e => rfl
        | ok v =>
          rcases hbad with hbad | hbad
          · rw [he] at hbad
            simp [Except.isOk, Except.toBool] at hbad
          · cases hc : ensureString it.content "comments[].content" with
            | error e => rfl
            | ok w =>
              rw [hc] at hbad
              simp [Except.isOk, Except.toBool] at hbad⟩
    cases hres : promiseAll processCreateCommentItem items with
    | error e => rfl
    | ok rs =>
      rw [hres] at hfail
      simp [Except.isOk, Except.toBool] at hfail
  · intro items h
    obtain ⟨it, hit, hbad⟩ := h
    have hne : items ≠ [] := fun he => absurd (he ▸ hit) (List.not_mem_nil it)
    unfold handleCreateSections
    rw [if_neg (by simp [hne])]
    have hfail : (promiseAll processCreateSectionItem items).isOk = false :=
      promiseAll_isOk_false _ items ⟨it, hit, by
        unfold processCreateSectionItem
        cases he : ensureUlid it.projectId "sections[].project_id" with
        | error e => rfl
        | ok v =>
          rcases hbad with hbad | hbad
          · rw [he] at hbad
            simp [Except.isOk, Except.toBool] at hbad
          · cases hc : ensureString it.name "sections[].name" with
            | error e => rfl
            | ok w =>
              rw [hc] at hbad
              simp [Except.isOk, Except.toBool] at hbad⟩
    cases hres : promiseAll processCreateSectionItem items with
    | error e => rfl
    | ok rs =>
      rw [hres] at hfail
      simp [Except.isOk, Except.toBool] at hfail
  · intro items h
    obtain ⟨it, hit, hbad⟩ := h
    have hne : items ≠ [] := fun he => absurd (he ▸ hit) (List.not_mem_nil it)
    unfold handleRenameSections
    rw [if_neg (by simp [hne])]
    have hfail : (promiseAll processRenameSectionItem items).isOk = false :=
      promiseAll_isOk_false _ items ⟨it, hit, by
        unfold processRenameSectionItem
        cases he : ensureUlid it.sectionId "sections[].section_id" with
        | error e => rfl
        | ok v =>
          rcases hbad with hbad | hbad
          · rw [he] at hbad
            simp [Except.isOk, Except.toBool] at hbad
          · cases hc : ensureString it.newName "sections[].new_name" with
            | error e => rfl
            | ok w =>
              rw [hc] at hbad
              simp [Except.isOk, Except.toBool] at hbad⟩
    cases hres : promiseAll processRenameSectionItem items with
    | error e => rfl
    | ok rs =>
      rw [hres] at hfail
      simp [Except.isOk, Except.toBool] at hfail

/-- Witness for C1 (amended) at concrete batches. -/
theorem c1_batch_isolation_witness :
    (dispatchTool (handleCreateTasks [⟨"write docs", none, none, none, none, UpstreamOutcome.ok⟩, ⟨"bad item", some "abc-123", none, none, none, UpstreamOutcome.ok⟩])
      = buildBatchResponse (List.map createTaskEntry ([⟨"write docs", none, none, none, none, UpstreamOutcome.ok⟩, ⟨"bad item", some "abc-123", none, none, none, UpstreamOutcome.ok⟩] : List CreateTaskItem)) 2)
    ∧ (dispatchTool (handleUpdateTasks [⟨"2995104339", UpstreamOutcome.ok⟩, ⟨"2995104340", UpstreamOutcome.fail "boom"⟩])
      = buildBatchResponse (List.map (fun it => taskIdEntry it.taskId it.inTry) ([⟨"2995104339", UpstreamOutcome.ok⟩, ⟨"2995104340", UpstreamOutcome.fail "boom"⟩] : List UpdateTaskItem)) 2)
    ∧ (dispatchTool (handleDeleteTasks [⟨"2995104339", UpstreamOutcome.ok⟩, ⟨"2995104340", UpstreamOutcome.fail "boom"⟩])
      = buildBatchResponse (List.map (fun it => taskIdEntry it.taskId it.upstream) ([⟨"2995104339", UpstreamOutcome.ok⟩, ⟨"2995104340", UpstreamOutcome.fail "boom"⟩] : List DeleteTaskItem)) 2)
    ∧ (dispatchTool (handleCompleteTasks [⟨"2995104339", UpstreamOutcome.ok⟩, ⟨"2995104340", UpstreamOutcome.fail "boom"⟩])
      = buildBatchResponse (List.map (fun it => taskIdEntry it.taskId it.upstream) ([⟨"2995104339", UpstreamOutcome.ok⟩, ⟨"2995104340", UpstreamOutcome.fail "boom"⟩] : List DeleteTaskItem)) 2)
    ∧ (dispatchTool (handleGetTaskComments [⟨"2995104339", UpstreamOutcome.ok⟩, ⟨"2995104340", UpstreamOutcome.fail "boom"⟩])
      = buildBatchResponse (List.map (fun it => taskIdEntry it.taskId it.upstream) ([⟨"2995104339", UpstreamOutcome.ok⟩, ⟨"2995104340", UpstreamOutcome.fail "boom"⟩] : List DeleteTaskItem)) 2)
    ∧ (dispatchTool (handleCreateTaskComments [⟨"2995104339", "hello", UpstreamOutcome.ok⟩])
      = buildBatchResponse (List.map (fun it => taskIdEntry it.taskId it.upstream) ([⟨"2995104339", "hello", UpstreamOutcome.ok⟩] : List CommentItem)) 1)
    ∧ (dispatchTool (handleCreateSections [⟨"2995104339", "Section A", UpstreamOutcome.ok⟩])
      = buildBatchResponse (List.map (fun it => taskIdEntry it.projectId it.upstream) ([⟨"2995104339", "Section A", UpstreamOutcome.ok⟩] : List SectionCreateItem)) 1)
    ∧ (dispatchTool (handleRenameSections [⟨"2995104339", "New name", UpstreamOutcome.ok⟩])
      = buildBatchResponse (List.map (fun it => taskIdEntry it.sectionId it.upstream) ([⟨"2995104339", "New name", UpstreamOutcome.ok⟩] : List SectionRenameItem)) 1)
    ∧ ((dispatchTool (handleUpdateTasks [⟨"abc-123", UpstreamOutcome.ok⟩])).isEnvelope = false)
    ∧ ((dispatchTool (handleDeleteTasks [⟨"abc-123", UpstreamOutcome.ok⟩])).isEnvelope = false)
    ∧ ((dispatchTool (handleCompleteTasks [⟨"abc-123", UpstreamOutcome.ok⟩])).isEnvelope = false)
    ∧ ((dispatchTool (handleGetTaskComments [⟨"abc-123", UpstreamOutcome.ok⟩])).isEnvelope = false)
    ∧ ((dispatchTool (handleCreateTaskComments [⟨"abc-123", "hi", UpstreamOutcome.ok⟩])).isEnvelope = false)
    ∧ ((dispatchTool (handleCreateSections [⟨"abc-123", "S", UpstreamOutcome.ok⟩])).isEnvelope = false)
    ∧ ((dispatchTool (handleRenameSections [⟨"abc-123", "N", UpstreamOutcome.ok⟩])).isEnvelope = false) := by
  obtain ⟨h1, h2, h3, h4, h5, h6, h7, h8, h9, h10, h11, h12, h13, h14, h15⟩ := c1_batch_isolation
  exact ⟨h1 _ (by decide), h2 _ (by decide) (by decide), h3 _ (by decide) (by decide),
    h4 _ (by decide) (by decide), h5 _ (by decide) (by decide), h6 _ (by decide) (by decide),
    h7 _ (by decide) (by decide), h8 _ (by decide) (by decide),
    h9 _ (by decide), h10 _ (by decide), h11 _ (by decide), h12 _ (by decide),
    h13 _ (by decide), h14 _ (by decide), h15 _ (by decide)⟩

/-- Witness for C10 at a concrete 26-digit string. -/
theorem c10_shape_overlap_witness :
    ulidRegexTest "22222222222222222222222222" = true
    ∧ legacyNumericRegexTest "22222222222222222222222222" = true
    ∧ isLegacyNumericId (some "22222222222222222222222222") = true
    ∧ legacyTaskIdsOf [⟨"22222222222222222222222222", none, none, none⟩]
        = ["22222222222222222222222222"]
    ∧ (convertTaskIdsToUlids (fun _ _ => none) emptyCache
        [⟨"22222222222222222222222222", none, none, none⟩]).2.2 = 1 := by
  obtain ⟨h1, h2, h3, h4, h5⟩ :=
    c10_shape_overlap "22222222222222222222222222" (by decide) (by decide)
  exact ⟨h1, h2, h3, h4, h5 (fun _ _ => none)⟩

end Todoist
